import Mathlib

/-!
Shallow embedding of the `global-hotkey` crate (hotkey identity & parser,
event model, and the X11 backend's worker state machine), with theorems
checking the natural-language specification against it.

Rust strings are embedded as `List Char`; Rust `u32` values as `Nat`
(claims here never exercise wrap-around); fallible functions return
`Except Error _`.
-/

namespace GH

/-- Rust `&str` embedded as a list of characters. -/
abbrev Str := List Char

/-- Turn a Lean string literal into the embedded string type. -/
def str (s : String) : Str := s.toList

/-- ASCII uppercasing of one character, as Rust `to_uppercase` acts on
ASCII input (all tokens the parser recognizes are ASCII). -/
def asciiUpper (c : Char) : Char :=
  if 97 ≤ c.toNat ∧ c.toNat ≤ 122 then Char.ofNat (c.toNat - 32) else c

/-- Rust `str::to_uppercase` on ASCII text. -/
def upperStr (s : Str) : Str := s.map asciiUpper

/-- The code points Rust `char::is_whitespace` (Unicode `White_Space`)
accepts, used by `str::trim`. -/
def wsCodes : List Nat :=
  [0x09, 0x0A, 0x0B, 0x0C, 0x0D, 0x20, 0x85, 0xA0, 0x1680,
   0x2000, 0x2001, 0x2002, 0x2003, 0x2004, 0x2005, 0x2006, 0x2007,
   0x2008, 0x2009, 0x200A, 0x2028, 0x2029, 0x202F, 0x205F, 0x3000]

/-- Whitespace test backing `str::trim`. -/
def isWs (c : Char) : Bool := decide (c.toNat ∈ wsCodes)

/-- Rust `str::trim`: strip whitespace from both ends. -/
def trim (s : Str) : Str :=
  ((s.dropWhile isWs).reverse.dropWhile isWs).reverse

/-- Helper for `splitPlus`; `acc` holds the current token reversed. -/
def splitPlusAux : Str → Str → List Str
  | [], acc => [acc.reverse]
  | c :: cs, acc =>
    if c = '+' then acc.reverse :: splitPlusAux cs []
    else splitPlusAux cs (c :: acc)

/-- Rust `str::split('+')` collected into a vector (`hotkey.split('+')`). -/
def splitPlus (s : Str) : List Str := splitPlusAux s []

/-- Join tokens with `'+'`, the inverse rendering used by the round-trip
claims. -/
def joinPlus : List Str → Str
  | [] => []
  | [t] => t
  | t :: ts => t ++ '+' :: joinPlus ts

/-- Decidable equality for `Except`, so concrete parser outcomes can be
settled by `decide`. -/
instance {ε α : Type} [DecidableEq ε] [DecidableEq α] :
    DecidableEq (Except ε α) := fun a b =>
  match a, b with
  | .ok x, .ok y =>
    if h : x = y then .isTrue (by rw [h]) else
      .isFalse (fun hc => h (by injection hc))
  | .error x, .error y =>
    if h : x = y then .isTrue (by rw [h]) else
      .isFalse (fun hc => h (by injection hc))
  | .ok _, .error _ => .isFalse (fun hc => Except.noConfusion hc)
  | .error _, .ok _ => .isFalse (fun hc => Except.noConfusion hc)

/-- First-match association lookup, the semantics of the Rust `match` on
an uppercased token. -/
def assocFind {α : Type} (u : Str) : List (Str × α) → Option α
  | [] => none
  | (k, v) :: rest => if u = k then some v else assocFind u rest

/-! ## Modifiers (the `keyboard_types::Modifiers` bit set) -/

/-- `Modifiers` embedded as a `Nat` bit mask; bit assignments follow the
`keyboard-types` crate's bitflags. -/
abbrev Modifiers := Nat

def Modifiers.ALT : Modifiers := 0x01
def Modifiers.ALT_GRAPH : Modifiers := 0x02
def Modifiers.CAPS_LOCK : Modifiers := 0x04
def Modifiers.CONTROL : Modifiers := 0x08
def Modifiers.FN : Modifiers := 0x10
def Modifiers.FN_LOCK : Modifiers := 0x20
def Modifiers.META : Modifiers := 0x40
def Modifiers.NUM_LOCK : Modifiers := 0x80
def Modifiers.SCROLL_LOCK : Modifiers := 0x100
def Modifiers.SHIFT : Modifiers := 0x200
def Modifiers.SYMBOL : Modifiers := 0x400
def Modifiers.SYMBOL_LOCK : Modifiers := 0x800
def Modifiers.HYPER : Modifiers := 0x1000
def Modifiers.SUPER : Modifiers := 0x2000

/-- `Modifiers::empty()`. -/
def Modifiers.empty : Modifiers := 0

/-! ## Key codes (`keyboard_types::Code`, the variants this crate uses) -/

inductive Code where
  | Backquote | Backslash | BracketLeft | BracketRight | Comma
  | Digit0 | Digit1 | Digit2 | Digit3 | Digit4
  | Digit5 | Digit6 | Digit7 | Digit8 | Digit9
  | Equal
  | IntlBackslash
  | KeyA | KeyB | KeyC | KeyD | KeyE | KeyF | KeyG | KeyH | KeyI
  | KeyJ | KeyK | KeyL | KeyM | KeyN | KeyO | KeyP | KeyQ | KeyR
  | KeyS | KeyT | KeyU | KeyV | KeyW | KeyX | KeyY | KeyZ
  | Minus | Period | Quote | Semicolon | Slash
  | Backspace | CapsLock | Enter | Space | Tab
  | Delete | End | Home | Insert | PageDown | PageUp
  | PrintScreen | ScrollLock | Pause
  | ArrowDown | ArrowLeft | ArrowRight | ArrowUp
  | NumLock
  | Numpad0 | Numpad1 | Numpad2 | Numpad3 | Numpad4
  | Numpad5 | Numpad6 | Numpad7 | Numpad8 | Numpad9
  | NumpadAdd | NumpadDecimal | NumpadDivide | NumpadEnter
  | NumpadEqual | NumpadMultiply | NumpadSubtract
  | Escape
  | F1 | F2 | F3 | F4 | F5 | F6 | F7 | F8 | F9 | F10 | F11 | F12
  | F13 | F14 | F15 | F16 | F17 | F18 | F19 | F20 | F21 | F22 | F23 | F24
  | AudioVolumeDown | AudioVolumeUp | AudioVolumeMute
  | MediaStop | MediaTrackNext | MediaTrackPrevious
deriving DecidableEq

/-! ## `parse_key` (hotkey.rs): uppercased token → key code -/

/-- The arms of the `parse_key` match, in source order, as an association
list from uppercased token to `Code`. -/
def keyList : List (Str × Code) :=
  [(str "BACKQUOTE", Code.Backquote), (str "`", Code.Backquote),
   (str "BACKSLASH", Code.Backslash), (str "\\", Code.Backslash),
   (str "BRACKETLEFT", Code.BracketLeft), (str "[", Code.BracketLeft),
   (str "BRACKETRIGHT", Code.BracketRight), (str "]", Code.BracketRight),
   (str "COMMA", Code.Comma), (str ",", Code.Comma),
   (str "DIGIT0", Code.Digit0), (str "0", Code.Digit0),
   (str "DIGIT1", Code.Digit1), (str "1", Code.Digit1),
   (str "DIGIT2", Code.Digit2), (str "2", Code.Digit2),
   (str "DIGIT3", Code.Digit3), (str "3", Code.Digit3),
   (str "DIGIT4", Code.Digit4), (str "4", Code.Digit4),
   (str "DIGIT5", Code.Digit5), (str "5", Code.Digit5),
   (str "DIGIT6", Code.Digit6), (str "6", Code.Digit6),
   (str "DIGIT7", Code.Digit7), (str "7", Code.Digit7),
   (str "DIGIT8", Code.Digit8), (str "8", Code.Digit8),
   (str "DIGIT9", Code.Digit9), (str "9", Code.Digit9),
   (str "EQUAL", Code.Equal), (str "=", Code.Equal),
   (str "KEYA", Code.KeyA), (str "A", Code.KeyA),
   (str "KEYB", Code.KeyB), (str "B", Code.KeyB),
   (str "KEYC", Code.KeyC), (str "C", Code.KeyC),
   (str "KEYD", Code.KeyD), (str "D", Code.KeyD),
   (str "KEYE", Code.KeyE), (str "E", Code.KeyE),
   (str "KEYF", Code.KeyF), (str "F", Code.KeyF),
   (str "KEYG", Code.KeyG), (str "G", Code.KeyG),
   (str "KEYH", Code.KeyH), (str "H", Code.KeyH),
   (str "KEYI", Code.KeyI), (str "I", Code.KeyI),
   (str "KEYJ", Code.KeyJ), (str "J", Code.KeyJ),
   (str "KEYK", Code.KeyK), (str "K", Code.KeyK),
   (str "KEYL", Code.KeyL), (str "L", Code.KeyL),
   (str "KEYM", Code.KeyM), (str "M", Code.KeyM),
   (str "KEYN", Code.KeyN), (str "N", Code.KeyN),
   (str "KEYO", Code.KeyO), (str "O", Code.KeyO),
   (str "KEYP", Code.KeyP), (str "P", Code.KeyP),
   (str "KEYQ", Code.KeyQ), (str "Q", Code.KeyQ),
   (str "KEYR", Code.KeyR), (str "R", Code.KeyR),
   (str "KEYS", Code.KeyS), (str "S", Code.KeyS),
   (str "KEYT", Code.KeyT), (str "T", Code.KeyT),
   (str "KEYU", Code.KeyU), (str "U", Code.KeyU),
   (str "KEYV", Code.KeyV), (str "V", Code.KeyV),
   (str "KEYW", Code.KeyW), (str "W", Code.KeyW),
   (str "KEYX", Code.KeyX), (str "X", Code.KeyX),
   (str "KEYY", Code.KeyY), (str "Y", Code.KeyY),
   (str "KEYZ", Code.KeyZ), (str "Z", Code.KeyZ),
   (str "MINUS", Code.Minus), (str "-", Code.Minus),
   (str "PERIOD", Code.Period), (str ".", Code.Period),
   (str "QUOTE", Code.Quote), ([ '\'' ], Code.Quote),
   (str "SEMICOLON", Code.Semicolon), (str ";", Code.Semicolon),
   (str "SLASH", Code.Slash), (str "/", Code.Slash),
   (str "BACKSPACE", Code.Backspace),
   (str "CAPSLOCK", Code.CapsLock),
   (str "ENTER", Code.Enter),
   (str "SPACE", Code.Space),
   (str "TAB", Code.Tab),
   (str "DELETE", Code.Delete),
   (str "END", Code.End),
   (str "HOME", Code.Home),
   (str "INSERT", Code.Insert),
   (str "PAGEDOWN", Code.PageDown),
   (str "PAGEUP", Code.PageUp),
   (str "PRINTSCREEN", Code.PrintScreen),
   (str "SCROLLLOCK", Code.ScrollLock),
   (str "ARROWDOWN", Code.ArrowDown), (str "DOWN", Code.ArrowDown),
   (str "ARROWLEFT", Code.ArrowLeft), (str "LEFT", Code.ArrowLeft),
   (str "ARROWRIGHT", Code.ArrowRight), (str "RIGHT", Code.ArrowRight),
   (str "ARROWUP", Code.ArrowUp), (str "UP", Code.ArrowUp),
   (str "NUMLOCK", Code.NumLock),
   (str "NUMPAD0", Code.Numpad0), (str "NUM0", Code.Numpad0),
   (str "NUMPAD1", Code.Numpad1), (str "NUM1", Code.Numpad1),
   (str "NUMPAD2", Code.Numpad2), (str "NUM2", Code.Numpad2),
   (str "NUMPAD3", Code.Numpad3), (str "NUM3", Code.Numpad3),
   (str "NUMPAD4", Code.Numpad4), (str "NUM4", Code.Numpad4),
   (str "NUMPAD5", Code.Numpad5), (str "NUM5", Code.Numpad5),
   (str "NUMPAD6", Code.Numpad6), (str "NUM6", Code.Numpad6),
   (str "NUMPAD7", Code.Numpad7), (str "NUM7", Code.Numpad7),
   (str "NUMPAD8", Code.Numpad8), (str "NUM8", Code.Numpad8),
   (str "NUMPAD9", Code.Numpad9), (str "NUM9", Code.Numpad9),
   (str "NUMPADADD", Code.NumpadAdd), (str "NUMADD", Code.NumpadAdd),
   (str "NUMPADPLUS", Code.NumpadAdd), (str "NUMPLUS", Code.NumpadAdd),
   (str "NUMPADDECIMAL", Code.NumpadDecimal), (str "NUMDECIMAL", Code.NumpadDecimal),
   (str "NUMPADDIVIDE", Code.NumpadDivide), (str "NUMDIVIDE", Code.NumpadDivide),
   (str "NUMPADENTER", Code.NumpadEnter), (str "NUMENTER", Code.NumpadEnter),
   (str "NUMPADEQUAL", Code.NumpadEqual), (str "NUMEQUAL", Code.NumpadEqual),
   (str "NUMPADMULTIPLY", Code.NumpadMultiply), (str "NUMMULTIPLY", Code.NumpadMultiply),
   (str "NUMPADSUBTRACT", Code.NumpadSubtract), (str "NUMSUBTRACT", Code.NumpadSubtract),
   (str "ESCAPE", Code.Escape), (str "ESC", Code.Escape),
   (str "F1", Code.F1), (str "F2", Code.F2), (str "F3", Code.F3), (str "F4", Code.F4),
   (str "F5", Code.F5), (str "F6", Code.F6), (str "F7", Code.F7), (str "F8", Code.F8),
   (str "F9", Code.F9), (str "F10", Code.F10), (str "F11", Code.F11), (str "F12", Code.F12),
   (str "AUDIOVOLUMEDOWN", Code.AudioVolumeDown), (str "VOLUMEDOWN", Code.AudioVolumeDown),
   (str "AUDIOVOLUMEUP", Code.AudioVolumeUp), (str "VOLUMEUP", Code.AudioVolumeUp),
   (str "AUDIOVOLUMEMUTE", Code.AudioVolumeMute), (str "VOLUMEMUTE", Code.AudioVolumeMute),
   (str "F13", Code.F13), (str "F14", Code.F14), (str "F15", Code.F15), (str "F16", Code.F16),
   (str "F17", Code.F17), (str "F18", Code.F18), (str "F19", Code.F19), (str "F20", Code.F20),
   (str "F21", Code.F21), (str "F22", Code.F22), (str "F23", Code.F23), (str "F24", Code.F24)]

/-! ## HotKey, errors, counter, parsing (hotkey.rs, error.rs) -/

/-- Modelled from the spec: `counter.rs` is referenced by the crate
(`static COUNTER: Counter`) but its source is not present; the spec says
ids come from "a monotonically increasing process-wide counter" and are
never reused. `next` returns the current value and the advanced counter
state. -/
def Counter.next (c : Nat) : Nat × Nat := (c, c + 1)

/-- `HotKey` (hotkey.rs): derives `PartialEq`, `Eq`, `Hash` structurally,
over all three fields, `id` included. -/
structure HotKey where
  mods : Modifiers
  key : Code
  id : Nat
deriving DecidableEq

/-- `Error` (error.rs). `FailedToRegister` carries a message formatted
from the offending key; the embedding carries the key itself, claims only
inspect the variant. `PanicNoKey` models the `key.unwrap()` panic in
`parse_hotkey` when an all-modifier string leaves `key == None`; it is not
a crate `Error` variant. -/
inductive Error where
  | OsError
  | HotKeyParseError (s : Str)
  | UnrecognizedHotKeyCode (s : Str)
  | EmptyHotKeyToken (s : Str)
  | UnexpectedHotKeyFormat (s : Str)
  | FailedToRegister (key : Code)
  | FailedToUnRegister (h : HotKey)
  | AlreadyRegistered (h : HotKey)
  | PanicNoKey
deriving DecidableEq

/-- `HotKey::new` (hotkey.rs): `mods.unwrap_or_else(Modifiers::empty)`
and a fresh id from the counter; returns the hotkey and the new counter
state. -/
def HotKey.new (mods : Option Modifiers) (key : Code) (ctr : Nat) :
    HotKey × Nat :=
  let (id, ctr') := Counter.next ctr
  ({ mods := mods.getD Modifiers.empty, key := key, id := id }, ctr')

/-- The stream of field values the derived `Hash` implementation feeds to
the hasher, in declaration order: `mods`, `key`, `id`. -/
def hashStream (h : HotKey) : List Nat :=
  [h.mods, h.key.toCtorIdx, h.id]

/-- `HotKey::matches` (hotkey.rs): the event's modifiers are first
restricted to `SHIFT | CONTROL | ALT | META | SUPER`. -/
def base_mods : Modifiers :=
  Modifiers.SHIFT ||| Modifiers.CONTROL ||| Modifiers.ALT |||
  Modifiers.META ||| Modifiers.SUPER

def HotKey.matches (h : HotKey) (modifiers : Modifiers) (key : Code) : Bool :=
  decide (h.mods = modifiers &&& base_mods) && decide (h.key = key)

/-- `parse_key` (hotkey.rs): uppercase the token, match it against the
keyword table; unmatched tokens give `UnrecognizedHotKeyCode` carrying the
token as passed (not uppercased). -/
def parse_key (key : Str) : Except Error Code :=
  match assocFind (upperStr key) keyList with
  | some c => .ok c
  | none => .error (.UnrecognizedHotKeyCode key)

/-- The modifier-keyword arms of the token match in `parse_hotkey`, in
source order, as uppercased token → modifier bits.  The
`COMMANDORCONTROL` family resolves to `CONTROL` (the
`not(target_os = "macos")` arm, matching the X11 backend modelled
below). -/
def modKeywordPairs : List (Str × Modifiers) :=
  [(str "OPTION", Modifiers.ALT), (str "ALT", Modifiers.ALT),
   (str "CONTROL", Modifiers.CONTROL), (str "CTRL", Modifiers.CONTROL),
   (str "COMMAND", Modifiers.META), (str "CMD", Modifiers.META),
   (str "SUPER", Modifiers.META),
   (str "SHIFT", Modifiers.SHIFT),
   (str "COMMANDORCONTROL", Modifiers.CONTROL),
   (str "COMMANDORCTRL", Modifiers.CONTROL),
   (str "CMDORCTRL", Modifiers.CONTROL),
   (str "CMDORCONTROL", Modifiers.CONTROL)]

/-- Is the (already uppercased) token a modifier keyword, and which bits
does it set? -/
def parseModTok (u : Str) : Option Modifiers := assocFind u modKeywordPairs

/-- The token loop of `parse_hotkey`'s multi-token arm (hotkey.rs):
per token, in order — trim; reject empty; reject if a key was already
taken; otherwise try the modifier keywords, else `parse_key`.  `orig` is
the whole input, which the error variants carry. -/
def parseTokens (orig : Str) :
    List Str → Modifiers → Option Code → Except Error (Modifiers × Code)
  | [], mods, key =>
    match key with
    | some k => .ok (mods, k)
    | none => .error .PanicNoKey
  | raw :: rest, mods, key =>
    let token := trim raw
    if token = [] then .error (.EmptyHotKeyToken orig)
    else if key.isSome then .error (.UnexpectedHotKeyFormat orig)
    else
      match parseModTok (upperStr token) with
      | some m => parseTokens orig rest (mods ||| m) key
      | none =>
        match parse_key token with
        | .ok c => parseTokens orig rest mods (some c)
        | .error e => .error e

/-- `parse_hotkey` (hotkey.rs): split on `'+'`; a single token is a bare
key (not trimmed); otherwise run the token loop.  The fresh id is the
current counter value. -/
def parse_hotkey (hotkey : Str) (ctr : Nat) : Except Error HotKey :=
  let tokens := splitPlus hotkey
  match tokens with
  | [t] =>
    match parse_key t with
    | .ok c => .ok { mods := Modifiers.empty, key := c, id := ctr }
    | .error e => .error e
  | _ =>
    match parseTokens hotkey tokens Modifiers.empty none with
    | .ok (m, k) => .ok { mods := m, key := k, id := ctr }
    | .error e => .error e

/-! ## Event model (lib.rs) -/

/-- `GlobalHotKeyEvent` (lib.rs): carries only the hotkey id. -/
structure GlobalHotKeyEvent where
  id : Nat
deriving DecidableEq

/-- The process-wide event-dispatch state (lib.rs):
`GLOBAL_HOTKEY_EVENT_HANDLER` is a `OnceCell<Option<Handler>>`
(`handlerCell = none` means the cell is unset), `GLOBAL_HOTKEY_CHANNEL`
an unbounded channel (`channel` the queued events, `channelOpen` whether
the receiver side is still alive), and `invoked` logs synchronous handler
invocations. -/
structure EventState (H : Type) where
  handlerCell : Option (Option H)
  channel : List GlobalHotKeyEvent
  channelOpen : Bool
  invoked : List GlobalHotKeyEvent
deriving DecidableEq

/-- `GlobalHotKeyEvent::set_event_handler` (lib.rs): both the `Some` and
the `None` argument call `OnceCell::set`, whose failure (cell already
occupied) is discarded with `let _ =`. -/
def set_event_handler {H : Type} (f : Option H) (st : EventState H) :
    EventState H :=
  match st.handlerCell with
  | some _ => st
  | none => { st with handlerCell := some f }

/-- `GlobalHotKeyEvent::send` (lib.rs): `get_or_init(|| None)` fills an
unset cell with `None`; an installed handler is invoked and the channel
untouched; otherwise the event goes to the channel, a failed channel send
being dropped with `let _ =`. -/
def GlobalHotKeyEvent.send {H : Type} (event : GlobalHotKeyEvent)
    (st : EventState H) : EventState H :=
  match st.handlerCell with
  | some (some _) => { st with invoked := st.invoked ++ [event] }
  | some none =>
    if st.channelOpen then { st with channel := st.channel ++ [event] } else st
  | none =>
    if st.channelOpen then
      { st with handlerCell := some none, channel := st.channel ++ [event] }
    else { st with handlerCell := some none }

/-! ## X11 backend (platform_impl/x11/mod.rs) -/

/-- X11 modifier masks (x11_dl::xlib). -/
def ShiftMask : Nat := 1
def LockMask : Nat := 2
def ControlMask : Nat := 4
def Mod1Mask : Nat := 8
def Mod2Mask : Nat := 16
def Mod4Mask : Nat := 64

/-- `modifiers_to_x11_mods` (x11/mod.rs). -/
def modifiers_to_x11_mods (modifiers : Modifiers) : Nat :=
  let x0 : Nat := 0
  let x1 := if modifiers &&& Modifiers.SHIFT = Modifiers.SHIFT
            then x0 ||| ShiftMask else x0
  let x2 := if modifiers &&& (Modifiers.SUPER ||| Modifiers.META) ≠ 0
            then x1 ||| Mod4Mask else x1
  let x3 := if modifiers &&& Modifiers.ALT = Modifiers.ALT
            then x2 ||| Mod1Mask else x2
  if modifiers &&& Modifiers.CONTROL = Modifiers.CONTROL
  then x3 ||| ControlMask else x3

/-- X keysym constants used by the scancode table (keysymdef.h /
XF86keysym.h). -/
def XK_backslash : Nat := 0x5c
def XK_bracketleft : Nat := 0x5b
def XK_bracketright : Nat := 0x5d
def XK_comma : Nat := 0x2c
def XK_equal : Nat := 0x3d
def XK_minus : Nat := 0x2d
def XK_period : Nat := 0x2e
def XK_leftsinglequotemark : Nat := 0xad0
def XK_semicolon : Nat := 0x3b
def XK_slash : Nat := 0x2f
def XK_BackSpace : Nat := 0xff08
def XK_Caps_Lock : Nat := 0xffe5
def XK_Return : Nat := 0xff0d
def XK_space : Nat := 0x20
def XK_Tab : Nat := 0xff09
def XK_Delete : Nat := 0xffff
def XK_End : Nat := 0xff57
def XK_Home : Nat := 0xff50
def XK_Insert : Nat := 0xff63
def XK_Page_Down : Nat := 0xff56
def XK_Page_Up : Nat := 0xff55
def XK_Down : Nat := 0xff54
def XK_Left : Nat := 0xff51
def XK_Right : Nat := 0xff53
def XK_Up : Nat := 0xff52
def XK_KP_0 : Nat := 0xffb0
def XK_KP_1 : Nat := 0xffb1
def XK_KP_2 : Nat := 0xffb2
def XK_KP_3 : Nat := 0xffb3
def XK_KP_4 : Nat := 0xffb4
def XK_KP_5 : Nat := 0xffb5
def XK_KP_6 : Nat := 0xffb6
def XK_KP_7 : Nat := 0xffb7
def XK_KP_8 : Nat := 0xffb8
def XK_KP_9 : Nat := 0xffb9
def XK_KP_Add : Nat := 0xffab
def XK_KP_Decimal : Nat := 0xffae
def XK_KP_Divide : Nat := 0xffaf
def XK_KP_Multiply : Nat := 0xffaa
def XK_KP_Subtract : Nat := 0xffad
def XK_Escape : Nat := 0xff1b
def XK_Print : Nat := 0xff61
def XK_Scroll_Lock : Nat := 0xff14
def XF86XK_AudioPlay : Nat := 0x1008ff14
def XF86XK_AudioStop : Nat := 0x1008ff15
def XF86XK_AudioNext : Nat := 0x1008ff17
def XF86XK_AudioPrev : Nat := 0x1008ff16
def XF86XK_AudioLowerVolume : Nat := 0x1008ff11
def XF86XK_AudioMute : Nat := 0x1008ff12
def XF86XK_AudioRaiseVolume : Nat := 0x1008ff13
def XK_F1 : Nat := 0xffbe
def XK_F2 : Nat := 0xffbf
def XK_F3 : Nat := 0xffc0
def XK_F4 : Nat := 0xffc1
def XK_F5 : Nat := 0xffc2
def XK_F6 : Nat := 0xffc3
def XK_F7 : Nat := 0xffc4
def XK_F8 : Nat := 0xffc5
def XK_F9 : Nat := 0xffc6
def XK_F10 : Nat := 0xffc7
def XK_F11 : Nat := 0xffc8
def XK_F12 : Nat := 0xffc9

/-- `keycode_to_x11_scancode` (x11/mod.rs); keys not listed (F13–F24,
`NumLock`, `NumpadEnter`, `NumpadEqual`, …) fall to the `_ => return None`
arm. -/
def keycode_to_x11_scancode (key : Code) : Option Nat :=
  match key with
  | Code.KeyA => some 65
  | Code.KeyB => some 66
  | Code.KeyC => some 67
  | Code.KeyD => some 68
  | Code.KeyE => some 69
  | Code.KeyF => some 70
  | Code.KeyG => some 71
  | Code.KeyH => some 72
  | Code.KeyI => some 73
  | Code.KeyJ => some 74
  | Code.KeyK => some 75
  | Code.KeyL => some 76
  | Code.KeyM => some 77
  | Code.KeyN => some 78
  | Code.KeyO => some 79
  | Code.KeyP => some 80
  | Code.KeyQ => some 81
  | Code.KeyR => some 82
  | Code.KeyS => some 83
  | Code.KeyT => some 84
  | Code.KeyU => some 85
  | Code.KeyV => some 86
  | Code.KeyW => some 87
  | Code.KeyX => some 88
  | Code.KeyY => some 89
  | Code.KeyZ => some 90
  | Code.Backslash => some XK_backslash
  | Code.BracketLeft => some XK_bracketleft
  | Code.BracketRight => some XK_bracketright
  | Code.Comma => some XK_comma
  | Code.Digit0 => some 48
  | Code.Digit1 => some 49
  | Code.Digit2 => some 50
  | Code.Digit3 => some 51
  | Code.Digit4 => some 52
  | Code.Digit5 => some 53
  | Code.Digit6 => some 54
  | Code.Digit7 => some 55
  | Code.Digit8 => some 56
  | Code.Digit9 => some 57
  | Code.Equal => some XK_equal
  | Code.IntlBackslash => some XK_backslash
  | Code.Minus => some XK_minus
  | Code.Period => some XK_period
  | Code.Quote => some XK_leftsinglequotemark
  | Code.Semicolon => some XK_semicolon
  | Code.Slash => some XK_slash
  | Code.Backspace => some XK_BackSpace
  | Code.CapsLock => some XK_Caps_Lock
  | Code.Enter => some XK_Return
  | Code.Space => some XK_space
  | Code.Tab => some XK_Tab
  | Code.Delete => some XK_Delete
  | Code.End => some XK_End
  | Code.Home => some XK_Home
  | Code.Insert => some XK_Insert
  | Code.PageDown => some XK_Page_Down
  | Code.PageUp => some XK_Page_Up
  | Code.ArrowDown => some XK_Down
  | Code.ArrowLeft => some XK_Left
  | Code.ArrowRight => some XK_Right
  | Code.ArrowUp => some XK_Up
  | Code.Numpad0 => some XK_KP_0
  | Code.Numpad1 => some XK_KP_1
  | Code.Numpad2 => some XK_KP_2
  | Code.Numpad3 => some XK_KP_3
  | Code.Numpad4 => some XK_KP_4
  | Code.Numpad5 => some XK_KP_5
  | Code.Numpad6 => some XK_KP_6
  | Code.Numpad7 => some XK_KP_7
  | Code.Numpad8 => some XK_KP_8
  | Code.Numpad9 => some XK_KP_9
  | Code.NumpadAdd => some XK_KP_Add
  | Code.NumpadDecimal => some XK_KP_Decimal
  | Code.NumpadDivide => some XK_KP_Divide
  | Code.NumpadMultiply => some XK_KP_Multiply
  | Code.NumpadSubtract => some XK_KP_Subtract
  | Code.Escape => some XK_Escape
  | Code.PrintScreen => some XK_Print
  | Code.ScrollLock => some XK_Scroll_Lock
  | Code.Pause => some XF86XK_AudioPlay
  | Code.MediaStop => some XF86XK_AudioStop
  | Code.MediaTrackNext => some XF86XK_AudioNext
  | Code.MediaTrackPrevious => some XF86XK_AudioPrev
  | Code.AudioVolumeDown => some XF86XK_AudioLowerVolume
  | Code.AudioVolumeMute => some XF86XK_AudioMute
  | Code.AudioVolumeUp => some XF86XK_AudioRaiseVolume
  | Code.F1 => some XK_F1
  | Code.F2 => some XK_F2
  | Code.F3 => some XK_F3
  | Code.F4 => some XK_F4
  | Code.F5 => some XK_F5
  | Code.F6 => some XK_F6
  | Code.F7 => some XK_F7
  | Code.F8 => some XK_F8
  | Code.F9 => some XK_F9
  | Code.F10 => some XK_F10
  | Code.F11 => some XK_F11
  | Code.F12 => some XK_F12
  | _ => none

/-! ### The worker thread's registration table
`HashMap<(u32, u32), (u32, bool)>`, keyed by (x11 modifier mask, native
keycode), valued (hotkey id, is_currently_repeating), embedded as an
association list with insert-replaces semantics. -/

abbrev Table := List ((Nat × Nat) × (Nat × Bool))

def tableGet : Table → Nat × Nat → Option (Nat × Bool)
  | [], _ => none
  | (k, v) :: rest, q => if q = k then some v else tableGet rest q

def tableErase : Table → Nat × Nat → Table
  | [], _ => []
  | (k, v) :: rest, q =>
    if q = k then tableErase rest q else (k, v) :: tableErase rest q

def tableInsert (q : Nat × Nat) (v : Nat × Bool) (t : Table) : Table :=
  (q, v) :: tableErase t q

/-- A native X11 key event as the worker sees it: `KeyPress`/`KeyRelease`,
`event.key.keycode`, `event.key.state`. -/
structure NativeEvent where
  isPress : Bool
  keycode : Nat
  state : Nat

/-- The mask the worker applies to `event.key.state`: "X11 sends masks for
Lock keys also and we only care about the 4 below". -/
def trackedMask : Nat := ControlMask ||| ShiftMask ||| Mod4Mask ||| Mod1Mask

/-- One native key event through the worker loop's event arm
(x11/mod.rs, the `KeyPress | KeyRelease` match): look up the masked
combination; on a press with `repeating = false`, send one event and set
the flag; on a release with `repeating = true`, clear the flag (nothing is
sent); all other cases do nothing.  Returns the new table and the events
sent to the event model. -/
def processNativeEvent (t : Table) (ev : NativeEvent) :
    Table × List GlobalHotKeyEvent :=
  let modifiers := ev.state &&& trackedMask
  match tableGet t (modifiers, ev.keycode) with
  | some (id, repeating) =>
    if ev.isPress ∧ repeating = false then
      (tableInsert (modifiers, ev.keycode) (id, true) t, [{ id := id }])
    else if ev.isPress = false ∧ repeating then
      (tableInsert (modifiers, ev.keycode) (id, false) t, [])
    else (t, [])
  | none => (t, [])

/-- Fold `processNativeEvent` over a sequence of native events, collecting
every event sent. -/
def processNativeEvents (t : Table) :
    List NativeEvent → Table × List GlobalHotKeyEvent
  | [] => (t, [])
  | ev :: rest =>
    let (t1, out1) := processNativeEvent t ev
    let (t2, out2) := processNativeEvents t1 rest
    (t2, out1 ++ out2)

/-! ### The worker thread's request arm
`XKeysymToKeycode` is a server-side translation, modelled as an abstract
function `ksToKc`; an `XGrabKey` conflict (`BadAccess`, i.e. another
client already holds the grab) is modelled by the abstract predicate
`grabBusy keycode mods`. -/

/-- `IGNORED_MODS` (x11/mod.rs): the grab is repeated for NumLock/CapsLock
variants. -/
def IGNORED_MODS : List Nat := [0, Mod2Mask, LockMask, Mod2Mask ||| LockMask]

/-- `ThreadMessage::RegisterHotKey` handling (x11/mod.rs 86–147).
Returns the table and the full list of replies sent on `tx`, in order.
On a `BadAccess` from any grab variant the worker replies
`AlreadyRegistered` and rolls the grabs back; otherwise, if the
combination is already in the table it replies `AlreadyRegistered` and
then — the `tx.send(Ok(()))` sits outside the `if/else` — also replies
`Ok`; a fresh combination is inserted and replied `Ok`; an untranslatable
key replies `FailedToRegister`. -/
def handleRegister (ksToKc : Nat → Nat) (grabBusy : Nat → Nat → Bool)
    (t : Table) (hotkey : HotKey) : Table × List (Except Error Unit) :=
  let modifiers := modifiers_to_x11_mods hotkey.mods
  match keycode_to_x11_scancode hotkey.key with
  | some key =>
    let keycode := ksToKc key
    let errored := IGNORED_MODS.any (fun m => grabBusy keycode (modifiers ||| m))
    if errored then
      (t, [.error (.AlreadyRegistered hotkey)])
    else if (tableGet t (modifiers, keycode)).isSome then
      (t, [.error (.AlreadyRegistered hotkey), .ok ()])
    else
      (tableInsert (modifiers, keycode) (hotkey.id, false) t, [.ok ()])
  | none => (t, [.error (.FailedToRegister hotkey.key)])

/-- `ThreadMessage::UnRegisterHotKey` handling (x11/mod.rs 148–172):
ungrab the four variants, remove the table entry, reply `Ok`; when the key
has no native translation the `else` branch holds only the comment
`// send back error` — no reply is sent at all. -/
def handleUnregister (ksToKc : Nat → Nat) (t : Table) (hotkey : HotKey) :
    Table × List (Except Error Unit) :=
  let modifiers := modifiers_to_x11_mods hotkey.mods
  match keycode_to_x11_scancode hotkey.key with
  | some key => (tableErase t (modifiers, ksToKc key), [.ok ()])
  | none => (t, [])

/-- The caller side of `GlobalHotKeyManager::register`/`unregister`
(x11/mod.rs 188–212): one `rx.recv()` on the bounded(1) reply channel, so
the caller observes the first reply; if the worker never replies, `recv`
errors when the sender is dropped and the call falls through to `Ok(())`. -/
def callerResult (replies : List (Except Error Unit)) : Except Error Unit :=
  match replies.head? with
  | some r => r
  | none => .ok ()

/-- `GlobalHotKeyManager::register` as the caller observes it. -/
def x11Register (ksToKc : Nat → Nat) (grabBusy : Nat → Nat → Bool)
    (t : Table) (hotkey : HotKey) : Table × Except Error Unit :=
  let (t1, replies) := handleRegister ksToKc grabBusy t hotkey
  (t1, callerResult replies)

/-- `GlobalHotKeyManager::unregister` as the caller observes it. -/
def x11Unregister (ksToKc : Nat → Nat) (t : Table) (hotkey : HotKey) :
    Table × Except Error Unit :=
  let (t1, replies) := handleUnregister ksToKc t hotkey
  (t1, callerResult replies)

/-- `GlobalHotKeyManager::unregister_all` (lib.rs 140–145) **as written**:
its loop body is `self.register(*hotkey)?` — it registers each element and
returns at the first failure. -/
def unregister_all (ksToKc : Nat → Nat) (grabBusy : Nat → Nat → Bool)
    (t : Table) : List HotKey → Table × Except Error Unit
  | [] => (t, .ok ())
  | hotkey :: rest =>
    match x11Register ksToKc grabBusy t hotkey with
    | (t1, .ok ()) => unregister_all ksToKc grabBusy t1 rest
    | (t1, .error e) => (t1, .error e)

/-- Modelled from the spec: what §4.3 says `unregister_all` does — "apply
`unregister` to each element of a sequence in order", returning at the
first failure.  Used to exhibit the divergence from `unregister_all` as
written. -/
def unregisterAllSpec (ksToKc : Nat → Nat) (t : Table) :
    List HotKey → Table × Except Error Unit
  | [] => (t, .ok ())
  | hotkey :: rest =>
    match x11Unregister ksToKc t hotkey with
    | (t1, .ok ()) => unregisterAllSpec ksToKc t1 rest
    | (t1, .error e) => (t1, .error e)

/-! ## Helper lemmas -/

theorem tableGet_insert_self (q : Nat × Nat) (v : Nat × Bool) (t : Table) :
    tableGet (tableInsert q v t) q = some v := by
  simp [tableInsert, tableGet]

theorem tableGet_erase_self (t : Table) (q : Nat × Nat) :
    tableGet (tableErase t q) q = none := by
  induction t with
  | nil => rfl
  | cons e rest ih =>
    obtain ⟨k, v⟩ := e
    by_cases h : q = k
    · simpa [tableErase, h] using ih
    · simpa [tableErase, tableGet, h] using ih

theorem splitPlusAux_append {t : Str} (hp : '+' ∉ t) (s acc : Str) :
    splitPlusAux (t ++ s) acc = splitPlusAux s (t.reverse ++ acc) := by
  induction t generalizing acc with
  | nil => simp
  | cons c cs ih =>
    have hc : c ≠ '+' := fun h => hp (by simp [h])
    have hcs : '+' ∉ cs := fun h => hp (List.mem_cons_of_mem _ h)
    simp [splitPlusAux, hc, ih hcs, List.append_assoc]

/-- Splitting undoes joining when no token contains `'+'`. -/
theorem splitPlus_joinPlus (ts : List Str) (hne : ts ≠ [])
    (hp : ∀ t ∈ ts, '+' ∉ t) : splitPlus (joinPlus ts) = ts := by
  induction ts with
  | nil => exact absurd rfl hne
  | cons t rest ih =>
    match rest, ih with
    | [], _ =>
      have h1 : '+' ∉ t := hp t (by simp)
      have h2 := splitPlusAux_append h1 ([] : Str) ([] : Str)
      simpa [splitPlus, joinPlus, splitPlusAux] using h2
    | r :: rs, ih =>
      have h1 : '+' ∉ t := hp t (by simp)
      have hrest : ∀ x ∈ r :: rs, '+' ∉ x := fun x hx =>
        hp x (List.mem_cons_of_mem _ hx)
      have h2 := splitPlusAux_append h1 ('+' :: joinPlus (r :: rs)) ([] : Str)
      have h3 := ih (by simp) hrest
      simp only [splitPlus] at h3
      simp [splitPlus, joinPlus, splitPlusAux, h2, h3]

/-- Uppercasing fixes whitespace characters. -/
theorem asciiUpper_of_isWs {c : Char} (h : isWs c = true) : asciiUpper c = c := by
  have hmem : c.toNat ∈ wsCodes := of_decide_eq_true h
  have hdis := (by simpa [wsCodes] using hmem :
    c.toNat = 0x09 ∨ c.toNat = 0x0A ∨ c.toNat = 0x0B ∨ c.toNat = 0x0C ∨
    c.toNat = 0x0D ∨ c.toNat = 0x20 ∨ c.toNat = 0x85 ∨ c.toNat = 0xA0 ∨
    c.toNat = 0x1680 ∨ c.toNat = 0x2000 ∨ c.toNat = 0x2001 ∨
    c.toNat = 0x2002 ∨ c.toNat = 0x2003 ∨ c.toNat = 0x2004 ∨
    c.toNat = 0x2005 ∨ c.toNat = 0x2006 ∨ c.toNat = 0x2007 ∨
    c.toNat = 0x2008 ∨ c.toNat = 0x2009 ∨ c.toNat = 0x200A ∨
    c.toNat = 0x2028 ∨ c.toNat = 0x2029 ∨ c.toNat = 0x202F ∨
    c.toNat = 0x205F ∨ c.toNat = 0x3000)
  have hlt : ¬(97 ≤ c.toNat ∧ c.toNat ≤ 122) := by
    rcases hdis with h | h | h | h | h | h | h | h | h | h | h | h | h |
      h | h | h | h | h | h | h | h | h | h | h | h <;> omega
  simp [asciiUpper, hlt]

/-- Uppercasing fixes `'+'`. -/
theorem asciiUpper_plus : asciiUpper '+' = '+' := by decide

/-- A token is suitable as rendered input to `parse_hotkey`: nonempty, no
`'+'`, no whitespace. -/
def tokGood (w : Str) : Bool :=
  !w.isEmpty && w.all (fun c => !(c = '+') && !isWs c)

theorem dropWhile_isWs_of_none {l : Str} (h : ∀ c ∈ l, isWs c = false) :
    l.dropWhile isWs = l := by
  cases l with
  | nil => rfl
  | cons a as => simp [List.dropWhile_cons, h a (by simp)]

theorem trim_of_no_ws {t : Str} (h : ∀ c ∈ t, isWs c = false) : trim t = t := by
  have h1 : t.dropWhile isWs = t := dropWhile_isWs_of_none h
  have h2 : t.reverse.dropWhile isWs = t.reverse :=
    dropWhile_isWs_of_none (fun c hc => h c (List.mem_reverse.mp hc))
  simp [trim, h1, h2]

/-- Transfer `tokGood` facts from an uppercased token to the token
itself. -/
theorem tok_facts {t w : Str} (hu : upperStr t = w) (hg : tokGood w = true) :
    trim t = t ∧ t ≠ [] ∧ '+' ∉ t := by
  simp only [tokGood, Bool.and_eq_true, List.all_eq_true,
    Bool.not_eq_true'] at hg
  obtain ⟨hne0, h2⟩ := hg
  have hne : w ≠ [] := by cases w <;> simp_all
  have hall : ∀ c ∈ w, ¬(c = '+') ∧ isWs c = false := by
    intro c hc
    have := h2 c hc
    simp only [Bool.and_eq_true, Bool.not_eq_true'] at this
    exact ⟨by simpa using this.1, this.2⟩
  refine ⟨?_, ?_, ?_⟩
  · refine trim_of_no_ws (fun c hc => ?_)
    by_contra hws
    have hws' : isWs c = true := by
      cases h : isWs c with
      | true => rfl
      | false => exact absurd h hws
    have hmem : asciiUpper c ∈ w := hu ▸ List.mem_map_of_mem asciiUpper hc
    rw [asciiUpper_of_isWs hws'] at hmem
    exact absurd hws' (by simp [(hall c hmem).2])
  · intro h0
    rw [h0] at hu
    exact hne (by simpa [upperStr] using hu.symm)
  · intro hp
    have hmem : asciiUpper '+' ∈ w := hu ▸ List.mem_map_of_mem asciiUpper hp
    rw [asciiUpper_plus] at hmem
    exact (hall '+' hmem).1 rfl

theorem assocFind_some_mem {α : Type} {u : Str} {v : α}
    {l : List (Str × α)} (h : assocFind u l = some v) : u ∈ l.map Prod.fst := by
  induction l with
  | nil => exact Option.noConfusion h
  | cons p rest ih =>
    obtain ⟨k, v'⟩ := p
    by_cases hk : u = k
    · subst hk
      exact List.mem_cons_self u _
    · simp only [assocFind, if_neg hk] at h
      exact List.mem_cons_of_mem _ (ih h)

set_option maxRecDepth 8000 in
/-- Every modifier keyword is a good token. -/
theorem modKeywords_good :
    ∀ w ∈ modKeywordPairs.map Prod.fst, tokGood w = true := by decide

set_option maxRecDepth 100000 in
/-- Every key keyword is a good token. -/
theorem keyKeywords_good :
    ∀ w ∈ keyList.map Prod.fst, tokGood w = true := by decide

set_option maxRecDepth 100000 in
/-- No modifier keyword is recognized by `parse_key`. -/
theorem modKeywords_not_keys :
    ∀ u ∈ modKeywordPairs.map Prod.fst, assocFind u keyList = none := by decide

/-- Facts about a token the loop recognizes as a modifier keyword. -/
theorem modTok_facts {t : Str} {m : Modifiers}
    (h : parseModTok (upperStr t) = some m) :
    trim t = t ∧ t ≠ [] ∧ '+' ∉ t :=
  tok_facts rfl (modKeywords_good _ (assocFind_some_mem h))

/-- Facts about a token `parse_key` accepts; it is also not a modifier
keyword. -/
theorem keyTok_facts {t : Str} {c : Code} (h : parse_key t = .ok c) :
    trim t = t ∧ t ≠ [] ∧ '+' ∉ t ∧ parseModTok (upperStr t) = none := by
  have hfind : assocFind (upperStr t) keyList = some c := by
    simp only [parse_key] at h
    cases hf : assocFind (upperStr t) keyList with
    | none => rw [hf] at h; exact absurd h (by simp)
    | some c' => rw [hf] at h; injection h with h'; rw [h']
  have hmem := assocFind_some_mem hfind
  have hfacts := tok_facts rfl (keyKeywords_good _ hmem)
  refine ⟨hfacts.1, hfacts.2.1, hfacts.2.2, ?_⟩
  cases hm : parseModTok (upperStr t) with
  | none => rfl
  | some m =>
    have := modKeywords_not_keys _ (assocFind_some_mem hm)
    rw [this] at hfind
    exact absurd hfind (by simp)

/-- The modifier bits a rendered token list denotes, with accumulator. -/
def modBitsFrom (acc : Modifiers) (ts : List Str) : Modifiers :=
  ts.foldl (fun a t => a ||| (parseModTok (upperStr t)).getD 0) acc

/-- The modifier bits a rendered token list denotes. -/
def modBits (ts : List Str) : Modifiers := modBitsFrom 0 ts

/-- The token loop walks over a prefix of modifier-keyword tokens,
accumulating their bits. -/
theorem parseTokens_modPrefix (orig : Str) {ms : List Str}
    (h : ∀ t ∈ ms, (parseModTok (upperStr t)).isSome) (suffix : List Str)
    (mods : Modifiers) :
    parseTokens orig (ms ++ suffix) mods none =
      parseTokens orig suffix (modBitsFrom mods ms) none := by
  induction ms generalizing mods with
  | nil => rfl
  | cons t ts ih =>
    obtain ⟨m, hm⟩ := Option.isSome_iff_exists.mp (h t (by simp))
    obtain ⟨htrim, hne, _⟩ := modTok_facts hm
    have hrest : ∀ x ∈ ts, (parseModTok (upperStr x)).isSome := fun x hx =>
      h x (List.mem_cons_of_mem _ hx)
    simp only [List.cons_append, parseTokens, htrim, if_neg hne,
      Option.isSome_none, Bool.false_eq_true, if_false, hm]
    show parseTokens orig (ts ++ suffix) (mods ||| m) none = _
    rw [ih hrest]
    simp [modBitsFrom, hm]

/-- The token loop consumes a key token when no key was taken yet. -/
theorem parseTokens_key (orig : Str) {k : Str} {c : Code}
    (hk : parse_key k = .ok c) (rest : List Str) (mods : Modifiers) :
    parseTokens orig (k :: rest) mods none =
      parseTokens orig rest mods (some c) := by
  obtain ⟨htrim, hne, _, hmod⟩ := keyTok_facts hk
  simp only [parseTokens, htrim, if_neg hne, Option.isSome_none,
    Bool.false_eq_true, if_false, hmod, hk]

/-- After the key is taken, the next token decides between the two
errors: empty → `EmptyHotKeyToken`, nonempty → `UnexpectedHotKeyFormat`. -/
theorem parseTokens_after_key (orig : Str) (t : Str) (rest : List Str)
    (mods : Modifiers) (c : Code) :
    parseTokens orig (t :: rest) mods (some c) =
      if trim t = [] then .error (.EmptyHotKeyToken orig)
      else .error (.UnexpectedHotKeyFormat orig) := by
  by_cases h : trim t = []
  · simp [parseTokens, h]
  · simp [parseTokens, h]

/-- `parse_hotkey` on a single rendered key token. -/
theorem parse_hotkey_single {k : Str} {c : Code} (hk : parse_key k = .ok c)
    (ctr : Nat) :
    parse_hotkey k ctr = .ok { mods := 0, key := c, id := ctr } := by
  obtain ⟨_, _, hplus, _⟩ := keyTok_facts hk
  have hsplit : splitPlus k = [k] :=
    splitPlus_joinPlus [k] (by simp) (by simpa using hplus)
  simp [parse_hotkey, hsplit, hk, Modifiers.empty]

/-- `parse_hotkey` on a joined token list of length at least two runs the
token loop on exactly those tokens. -/
theorem parse_hotkey_join_multi {toks : List Str} (hl : 2 ≤ toks.length)
    (hp : ∀ t ∈ toks, '+' ∉ t) (ctr : Nat) :
    parse_hotkey (joinPlus toks) ctr =
      match parseTokens (joinPlus toks) toks 0 none with
      | .ok (m, k) => .ok { mods := m, key := k, id := ctr }
      | .error e => .error e := by
  match toks, hl, hp with
  | a :: b :: rest, _, hp =>
    have hsplit : splitPlus (joinPlus (a :: b :: rest)) = a :: b :: rest :=
      splitPlus_joinPlus _ (by simp) hp
    simp only [parse_hotkey, hsplit, Modifiers.empty]

/-- C6 — Parser round-trip: rendering any list of modifier-keyword tokens
(in any order, any letter case) followed by a recognized key token and
parsing it back yields exactly the denoted modifier set and key code. -/
theorem c6_parser_roundtrip (ts : List Str) (k : Str) (c : Code) (ctr : Nat)
    (hms : ∀ t ∈ ts, (parseModTok (upperStr t)).isSome)
    (hk : parse_key k = .ok c) :
    parse_hotkey (joinPlus (ts ++ [k])) ctr =
      .ok { mods := modBits ts, key := c, id := ctr } := by
  obtain ⟨_, _, hkplus, _⟩ := keyTok_facts hk
  cases ts with
  | nil =>
    simpa [modBits, modBitsFrom] using parse_hotkey_single hk ctr
  | cons t ts' =>
    have hp : ∀ x ∈ (t :: ts') ++ [k], '+' ∉ x := by
      intro x hx
      rcases List.mem_append.mp hx with hx | hx
      · obtain ⟨m, hm⟩ := Option.isSome_iff_exists.mp (hms x hx)
        exact (modTok_facts hm).2.2
      · rw [List.mem_singleton.mp hx]; exact hkplus
    have hl : 2 ≤ ((t :: ts') ++ [k]).length := by simp
    rw [parse_hotkey_join_multi hl hp ctr,
      parseTokens_modPrefix _ hms [k] 0, parseTokens_key _ hk [] _]
    rfl

/-- Witness for C6 at a concrete rendering: `cmd+ShIfT+Up` parses to
`META ||| SHIFT` with `ArrowUp`. -/
theorem c6_witness :
    parse_hotkey (joinPlus [str "cmd", str "ShIfT", str "Up"]) 4 =
      .ok { mods := modBits [str "cmd", str "ShIfT"], key := Code.ArrowUp,
            id := 4 } :=
  c6_parser_roundtrip [str "cmd", str "ShIfT"] (str "Up") Code.ArrowUp 4
    (by decide) (by decide)

theorem trim_nil : trim [] = [] := rfl

/-- Does a parse outcome carry the `UnexpectedHotKeyFormat` error? -/
def isFormatErr : Except Error HotKey → Bool
  | .error (.UnexpectedHotKeyFormat _) => true
  | _ => false

/-- Does a parse outcome carry the `EmptyHotKeyToken` error? -/
def isEmptyTokenErr : Except Error HotKey → Bool
  | .error (.EmptyHotKeyToken _) => true
  | _ => false

/-- C7 (amended) — Modifiers-before-key ordering: once the key token has
been consumed, the next token is rejected — with `UnexpectedHotKeyFormat`
when it trims to a nonempty token, and with `EmptyHotKeyToken` when it
trims to empty (the empty-token check runs first); concretely
`shift+Q+alt` fails with the format error and `shift+alt+Q` parses. -/
theorem c7_modifiers_before_key :
    (∀ (ms : List Str) (k t : Str) (rest : List Str) (c : Code) (ctr : Nat),
      (∀ x ∈ ms, (parseModTok (upperStr x)).isSome) →
      parse_key k = .ok c →
      '+' ∉ t → (∀ x ∈ rest, '+' ∉ x) →
      parse_hotkey (joinPlus (ms ++ k :: t :: rest)) ctr =
        (if trim t = [] then
          .error (.EmptyHotKeyToken (joinPlus (ms ++ k :: t :: rest)))
         else
          .error (.UnexpectedHotKeyFormat (joinPlus (ms ++ k :: t :: rest))))) ∧
    parse_hotkey (str "shift+Q+alt") 0 =
      .error (.UnexpectedHotKeyFormat (str "shift+Q+alt")) ∧
    parse_hotkey (str "shift+alt+Q") 0 =
      .ok { mods := Modifiers.SHIFT ||| Modifiers.ALT, key := Code.KeyQ,
            id := 0 } := by
  refine ⟨?_, by decide, by decide⟩
  intro ms k t rest c ctr hms hk htp hrestp
  obtain ⟨_, _, hkplus, _⟩ := keyTok_facts hk
  have hp : ∀ x ∈ ms ++ k :: t :: rest, '+' ∉ x := by
    intro x hx
    rcases List.mem_append.mp hx with hx | hx
    · obtain ⟨m, hm⟩ := Option.isSome_iff_exists.mp (hms x hx)
      exact (modTok_facts hm).2.2
    · rcases hx with _ | ⟨_, hx⟩
      · exact hkplus
      · rcases hx with _ | ⟨_, hx⟩
        · exact htp
        · exact hrestp x hx
  have hl : 2 ≤ (ms ++ k :: t :: rest).length := by
    simp only [List.length_append, List.length_cons]
    omega
  rw [parse_hotkey_join_multi hl hp ctr,
    parseTokens_modPrefix _ hms (k :: t :: rest) 0, parseTokens_key _ hk _ _,
    parseTokens_after_key]
  by_cases h : trim t = [] <;> simp [h]

/-- Witness for C7: applying the general part at a concrete input where a
nonempty token follows the key. -/
theorem c7_witness :
    parse_hotkey (joinPlus ([str "ctrl"] ++ str "A" :: str "alt" :: [])) 0 =
      .error (.UnexpectedHotKeyFormat
        (joinPlus ([str "ctrl"] ++ str "A" :: str "alt" :: []))) := by
  have h := c7_modifiers_before_key.1 [str "ctrl"] (str "A") (str "alt") []
    Code.KeyA 0 (by decide) (by decide) (by decide) (by decide)
  rw [h, if_neg (by decide)]

/-- Counterexample for C7 as stated: in `shift+Q+` a (empty) token follows
the key token `Q`, yet parsing fails with `EmptyHotKeyToken`, not with
`UnexpectedHotKeyFormat`. -/
theorem c7_counterexample :
    splitPlus (str "shift+Q+") = [str "shift", str "Q", []] ∧
    parse_hotkey (str "shift+Q+") 0 =
      .error (.EmptyHotKeyToken (str "shift+Q+")) ∧
    isFormatErr (parse_hotkey (str "shift+Q+") 0) = false := by
  refine ⟨by decide, by decide, by decide⟩

/-- C8 (amended) — Malformed-token rejection: a multi-token input whose
tokens up to and including the first empty token are otherwise all
modifier keywords fails with `EmptyHotKeyToken`; a token that is neither
a modifier keyword nor a recognized key, reached before any key token,
fails with `UnrecognizedHotKeyCode` naming that token (trimmed, original
letter case); `+G`, `CTRL+`, and `SHGSH+G` all fail as the claim's
examples say. -/
theorem c8_malformed_tokens :
    (∀ (ms rest : List Str) (ctr : Nat),
      (∀ x ∈ ms, (parseModTok (upperStr x)).isSome) →
      (∀ x ∈ rest, '+' ∉ x) →
      ms ≠ [] ∨ rest ≠ [] →
      parse_hotkey (joinPlus (ms ++ [] :: rest)) ctr =
        .error (.EmptyHotKeyToken (joinPlus (ms ++ [] :: rest)))) ∧
    (∀ (ms : List Str) (u : Str) (rest : List Str) (ctr : Nat),
      (∀ x ∈ ms, (parseModTok (upperStr x)).isSome) →
      '+' ∉ u → (∀ x ∈ rest, '+' ∉ x) →
      trim u ≠ [] →
      parseModTok (upperStr (trim u)) = none →
      assocFind (upperStr (trim u)) keyList = none →
      ms ≠ [] ∨ rest ≠ [] →
      parse_hotkey (joinPlus (ms ++ u :: rest)) ctr =
        .error (.UnrecognizedHotKeyCode (trim u))) ∧
    parse_hotkey (str "+G") 0 = .error (.EmptyHotKeyToken (str "+G")) ∧
    parse_hotkey (str "CTRL+") 0 =
      .error (.EmptyHotKeyToken (str "CTRL+")) ∧
    parse_hotkey (str "SHGSH+G") 0 =
      .error (.UnrecognizedHotKeyCode (str "SHGSH")) := by
  refine ⟨?_, ?_, by decide, by decide, by decide⟩
  · intro ms rest ctr hms hrestp hor
    have hp : ∀ x ∈ ms ++ [] :: rest, '+' ∉ x := by
      intro x hx
      rcases List.mem_append.mp hx with hx | hx
      · obtain ⟨m, hm⟩ := Option.isSome_iff_exists.mp (hms x hx)
        exact (modTok_facts hm).2.2
      · rcases hx with _ | ⟨_, hx⟩
        · simp
        · exact hrestp x hx
    have hl : 2 ≤ (ms ++ [] :: rest).length := by
      simp only [List.length_append, List.length_cons]
      rcases hor with h | h
      · have := List.length_pos.mpr h; omega
      · have := List.length_pos.mpr h; omega
    rw [parse_hotkey_join_multi hl hp ctr,
      parseTokens_modPrefix _ hms ([] :: rest) 0]
    simp [parseTokens, trim_nil]
  · intro ms u rest ctr hms hup hrestp htne hnomod hnokey hor
    have hp : ∀ x ∈ ms ++ u :: rest, '+' ∉ x := by
      intro x hx
      rcases List.mem_append.mp hx with hx | hx
      · obtain ⟨m, hm⟩ := Option.isSome_iff_exists.mp (hms x hx)
        exact (modTok_facts hm).2.2
      · rcases hx with _ | ⟨_, hx⟩
        · exact hup
        · exact hrestp x hx
    have hl : 2 ≤ (ms ++ u :: rest).length := by
      simp only [List.length_append, List.length_cons]
      rcases hor with h | h
      · have := List.length_pos.mpr h; omega
      · have := List.length_pos.mpr h; omega
    rw [parse_hotkey_join_multi hl hp ctr,
      parseTokens_modPrefix _ hms (u :: rest) 0]
    simp [parseTokens, htne, hnomod, parse_key, hnokey]

/-- Witness for C8: both general parts applied at concrete inputs. -/
theorem c8_witness :
    parse_hotkey (joinPlus ([str "ctrl"] ++ [] :: [])) 0 =
      .error (.EmptyHotKeyToken (joinPlus ([str "ctrl"] ++ [] :: []))) ∧
    parse_hotkey (joinPlus ([str "ctrl"] ++ str "zz" :: [])) 0 =
      .error (.UnrecognizedHotKeyCode (trim (str "zz"))) := by
  constructor
  · exact c8_malformed_tokens.1 [str "ctrl"] [] 0 (by decide) (by decide)
      (Or.inl (by decide))
  · exact c8_malformed_tokens.2.1 [str "ctrl"] (str "zz") [] 0 (by decide)
      (by decide) (by decide) (by decide) (by decide) (by decide)
      (Or.inl (by decide))

/-- Counterexample for C8 as stated: `foo+` is a multi-token input
containing an empty token, yet parsing fails with
`UnrecognizedHotKeyCode "foo"` (the earlier offending token), not with
`EmptyHotKeyToken`. -/
theorem c8_counterexample :
    splitPlus (str "foo+") = [str "foo", []] ∧
    parse_hotkey (str "foo+") 0 =
      .error (.UnrecognizedHotKeyCode (str "foo")) ∧
    isEmptyTokenErr (parse_hotkey (str "foo+") 0) = false := by
  refine ⟨by decide, by decide, by decide⟩

/-- C1 (amended) — The derived `PartialEq`/`Eq`/`Hash` of `HotKey` are
structural over all three fields, `id` included: two hotkeys are equal iff
they agree on `(mods, key, id)`; equal hotkeys hash identically; and two
hotkeys built by `HotKey::new` from the same `(mods, key)` at successive
counter states are **not** equal, because their ids differ. -/
theorem c1_eq_hash_over_mods_key_id :
    (∀ h1 h2 : HotKey,
      h1 = h2 ↔ (h1.mods = h2.mods ∧ h1.key = h2.key ∧ h1.id = h2.id)) ∧
    (∀ h1 h2 : HotKey, h1 = h2 → hashStream h1 = hashStream h2) ∧
    (∀ (m : Option Modifiers) (k : Code) (c : Nat),
      (HotKey.new m k c).1 ≠ (HotKey.new m k (HotKey.new m k c).2).1) := by
  refine ⟨?_, ?_, ?_⟩
  · intro h1 h2
    constructor
    · intro h; rw [h]; exact ⟨rfl, rfl, rfl⟩
    · obtain ⟨m1, k1, i1⟩ := h1
      obtain ⟨m2, k2, i2⟩ := h2
      rintro ⟨hm, hk, hi⟩
      simp_all
  · intro h1 h2 h; rw [h]
  · intro m k c hcontra
    have : c = c + 1 := congrArg HotKey.id hcontra
    omega

/-- Counterexample for C1 as stated: two hotkeys built by `HotKey::new`
from the same `(SHIFT, KeyQ)` at the counter states the process
counter walks through (0, then 1) are not equal and their hash streams
differ, refuting "compare equal and hash identically". -/
theorem c1_counterexample :
    (HotKey.new (some Modifiers.SHIFT) Code.KeyQ 0).2 = 1 ∧
    (HotKey.new (some Modifiers.SHIFT) Code.KeyQ 0).1.mods =
      (HotKey.new (some Modifiers.SHIFT) Code.KeyQ 1).1.mods ∧
    (HotKey.new (some Modifiers.SHIFT) Code.KeyQ 0).1.key =
      (HotKey.new (some Modifiers.SHIFT) Code.KeyQ 1).1.key ∧
    (HotKey.new (some Modifiers.SHIFT) Code.KeyQ 0).1 ≠
      (HotKey.new (some Modifiers.SHIFT) Code.KeyQ 1).1 ∧
    hashStream (HotKey.new (some Modifiers.SHIFT) Code.KeyQ 0).1 ≠
      hashStream (HotKey.new (some Modifiers.SHIFT) Code.KeyQ 1).1 := by
  refine ⟨rfl, rfl, rfl, by decide, by decide⟩

/-- Witness for C1: the amended equality and hash facts applied at
concrete hotkeys. -/
theorem c1_witness :
    ({ mods := Modifiers.SHIFT, key := Code.KeyQ, id := 2 } : HotKey) =
      { mods := Modifiers.SHIFT, key := Code.KeyQ, id := 2 } ∧
    hashStream { mods := Modifiers.SHIFT, key := Code.KeyQ, id := 2 } =
      hashStream { mods := Modifiers.SHIFT, key := Code.KeyQ, id := 2 } ∧
    (HotKey.new (some Modifiers.SHIFT) Code.KeyQ 0).1 ≠
      (HotKey.new (some Modifiers.SHIFT) Code.KeyQ
        (HotKey.new (some Modifiers.SHIFT) Code.KeyQ 0).2).1 := by
  refine ⟨?_, ?_, ?_⟩
  · exact (c1_eq_hash_over_mods_key_id.1
      { mods := Modifiers.SHIFT, key := Code.KeyQ, id := 2 }
      { mods := Modifiers.SHIFT, key := Code.KeyQ, id := 2 }).mpr
      ⟨rfl, rfl, rfl⟩
  · exact c1_eq_hash_over_mods_key_id.2.1
      { mods := Modifiers.SHIFT, key := Code.KeyQ, id := 2 }
      { mods := Modifiers.SHIFT, key := Code.KeyQ, id := 2 } rfl
  · exact c1_eq_hash_over_mods_key_id.2.2 (some Modifiers.SHIFT) Code.KeyQ 0

/-- C10 — `HotKey::matches` holds exactly when the key agrees and the
hotkey's modifiers equal the event modifiers restricted to
`SHIFT | CONTROL | ALT | META | SUPER`; bits outside that mask (Lock keys
and other untracked modifiers) never change the outcome. -/
theorem c10_matches_masks_lock_bits :
    (∀ (h : HotKey) (m : Modifiers) (k : Code),
      HotKey.matches h m k = true ↔ (h.key = k ∧ h.mods = m &&& base_mods)) ∧
    (∀ (h : HotKey) (m extra : Modifiers) (k : Code),
      extra &&& base_mods = 0 →
      HotKey.matches h (m ||| extra) k = HotKey.matches h m k) := by
  constructor
  · intro h m k
    simp [HotKey.matches, and_comm]
  · intro h m extra k hextra
    have hmask : (m ||| extra) &&& base_mods = m &&& base_mods := by
      apply Nat.eq_of_testBit_eq
      intro j
      have h0 : Nat.testBit (extra &&& base_mods) j = false := by
        rw [hextra]; simp
      rw [Nat.testBit_land] at h0
      rw [Nat.testBit_land, Nat.testBit_lor, Nat.testBit_land]
      cases hb : Nat.testBit base_mods j with
      | false => simp
      | true =>
        rw [hb, Bool.and_true] at h0
        simp [h0]
    simp [HotKey.matches, hmask]

/-- Witness for C10's lock-invariance part: CAPS_LOCK and NUM_LOCK bits
in the event modifiers do not change a concrete match. -/
theorem c10_witness :
    HotKey.matches { mods := Modifiers.SHIFT, key := Code.KeyQ, id := 0 }
      (Modifiers.SHIFT ||| (Modifiers.CAPS_LOCK ||| Modifiers.NUM_LOCK))
      Code.KeyQ =
    HotKey.matches { mods := Modifiers.SHIFT, key := Code.KeyQ, id := 0 }
      Modifiers.SHIFT Code.KeyQ ∧
    HotKey.matches { mods := Modifiers.SHIFT, key := Code.KeyQ, id := 0 }
      Modifiers.SHIFT Code.KeyQ = true := by
  constructor
  · exact c10_matches_masks_lock_bits.2
      { mods := Modifiers.SHIFT, key := Code.KeyQ, id := 0 }
      Modifiers.SHIFT (Modifiers.CAPS_LOCK ||| Modifiers.NUM_LOCK)
      Code.KeyQ (by decide)
  · exact (c10_matches_masks_lock_bits.1
      { mods := Modifiers.SHIFT, key := Code.KeyQ, id := 0 }
      Modifiers.SHIFT Code.KeyQ).mpr ⟨rfl, by decide⟩

/-- C9 — Event dispatch: the first `set_event_handler` call occupies the
`OnceCell` and every later call is a no-op; `send` invokes an installed
handler and leaves the channel untouched; with no installed handler it
appends to the channel when the channel is alive and silently drops the
event otherwise, never touching the handler log. -/
theorem c9_event_dispatch :
    (∀ (H : Type) (st : EventState H) (f : Option H),
      st.handlerCell = none →
      set_event_handler f st = { st with handlerCell := some f }) ∧
    (∀ (H : Type) (st : EventState H) (f : Option H),
      st.handlerCell ≠ none → set_event_handler f st = st) ∧
    (∀ (H : Type) (st : EventState H) (h : H) (ev : GlobalHotKeyEvent),
      st.handlerCell = some (some h) →
      GlobalHotKeyEvent.send ev st = { st with invoked := st.invoked ++ [ev] }) ∧
    (∀ (H : Type) (st : EventState H) (ev : GlobalHotKeyEvent),
      st.handlerCell = some none ∨ st.handlerCell = none →
      (GlobalHotKeyEvent.send ev st).invoked = st.invoked ∧
      (GlobalHotKeyEvent.send ev st).channel =
        (if st.channelOpen then st.channel ++ [ev] else st.channel)) := by
  refine ⟨?_, ?_, ?_, ?_⟩
  · intro H st f hc
    simp [set_event_handler, hc]
  · intro H st f hc
    cases h : st.handlerCell with
    | none => exact absurd h hc
    | some g => simp [set_event_handler, h]
  · intro H st h ev hc
    simp [GlobalHotKeyEvent.send, hc]
  · intro H st ev hc
    rcases hc with hc | hc <;>
      cases hopen : st.channelOpen <;>
        simp [GlobalHotKeyEvent.send, hc, hopen]

/-- Witness for C9 at concrete states over `H := Unit`. -/
theorem c9_witness :
    set_event_handler (some PUnit.unit)
      { handlerCell := none, channel := [], channelOpen := true,
        invoked := [] } =
      { handlerCell := some (some PUnit.unit), channel := [],
        channelOpen := true, invoked := ([] : List GlobalHotKeyEvent) } ∧
    set_event_handler (none : Option PUnit)
      { handlerCell := some (some PUnit.unit), channel := [],
        channelOpen := true, invoked := [] } =
      { handlerCell := some (some PUnit.unit), channel := [],
        channelOpen := true, invoked := ([] : List GlobalHotKeyEvent) } ∧
    GlobalHotKeyEvent.send { id := 3 }
      { handlerCell := some (some PUnit.unit), channel := [],
        channelOpen := true, invoked := [] } =
      { handlerCell := some (some PUnit.unit), channel := [],
        channelOpen := true, invoked := [{ id := 3 }] } ∧
    (GlobalHotKeyEvent.send { id := 4 }
      { handlerCell := (some none : Option (Option PUnit)), channel := [],
        channelOpen := true, invoked := [] }).channel = [{ id := 4 }] := by
  refine ⟨?_, ?_, ?_, ?_⟩
  · exact c9_event_dispatch.1 PUnit _ (some PUnit.unit) rfl
  · exact c9_event_dispatch.2.1 PUnit _ none (by simp)
  · exact c9_event_dispatch.2.2.1 PUnit _ PUnit.unit { id := 3 } rfl
  · exact ((c9_event_dispatch.2.2.2 PUnit
      { handlerCell := (some none : Option (Option PUnit)), channel := [],
        channelOpen := true, invoked := [] } { id := 4 }) (Or.inl rfl)).2

/-! ## X11 native-event lemmas -/

theorem processNativeEvent_press_fires {t : Table} {mask kc i s : Nat}
    (h0 : tableGet t (mask, kc) = some (i, false))
    (hs : s &&& trackedMask = mask) :
    processNativeEvent t { isPress := true, keycode := kc, state := s } =
      (tableInsert (mask, kc) (i, true) t, [{ id := i }]) := by
  simp [processNativeEvent, hs, h0]

theorem processNativeEvent_press_repeat {t : Table} {mask kc i s : Nat}
    (h0 : tableGet t (mask, kc) = some (i, true))
    (hs : s &&& trackedMask = mask) :
    processNativeEvent t { isPress := true, keycode := kc, state := s } =
      (t, []) := by
  simp [processNativeEvent, hs, h0]

theorem processNativeEvent_release_clears {t : Table} {mask kc i s : Nat}
    (h0 : tableGet t (mask, kc) = some (i, true))
    (hs : s &&& trackedMask = mask) :
    processNativeEvent t { isPress := false, keycode := kc, state := s } =
      (tableInsert (mask, kc) (i, false) t, []) := by
  simp [processNativeEvent, hs, h0]

theorem processNativeEvents_repeats {mask kc i s : Nat} (n : Nat)
    {t : Table} (h0 : tableGet t (mask, kc) = some (i, true))
    (hs : s &&& trackedMask = mask) :
    processNativeEvents t
      (List.replicate n { isPress := true, keycode := kc, state := s }) =
      (t, []) := by
  induction n with
  | zero => rfl
  | succ n ih =>
    simp [List.replicate_succ, processNativeEvents,
      processNativeEvent_press_repeat h0 hs, ih]

/-- C4 (amended) — X11 edge-triggered repeat collapse: with `(mask, kc)`
registered and not repeating, a press followed by any number of repeated
presses sends exactly one event (carrying the entry's id) and leaves the
entry repeating; the subsequent release sends **no** event — it only
resets `is_currently_repeating` — after which a new press again sends
exactly one event. -/
theorem c4_repeat_collapse (n : Nat) (t : Table) (mask kc i s s2 : Nat)
    (h0 : tableGet t (mask, kc) = some (i, false))
    (hs : s &&& trackedMask = mask) (hs2 : s2 &&& trackedMask = mask) :
    (processNativeEvents t
        ({ isPress := true, keycode := kc, state := s } ::
          List.replicate n { isPress := true, keycode := kc, state := s })).2 =
      [{ id := i }] ∧
    (processNativeEvent
        (processNativeEvents t
          ({ isPress := true, keycode := kc, state := s } ::
            List.replicate n
              { isPress := true, keycode := kc, state := s })).1
        { isPress := false, keycode := kc, state := s2 }).2 = [] ∧
    tableGet
      (processNativeEvent
        (processNativeEvents t
          ({ isPress := true, keycode := kc, state := s } ::
            List.replicate n
              { isPress := true, keycode := kc, state := s })).1
        { isPress := false, keycode := kc, state := s2 }).1 (mask, kc) =
      some (i, false) ∧
    (processNativeEvent
      (processNativeEvent
        (processNativeEvents t
          ({ isPress := true, keycode := kc, state := s } ::
            List.replicate n
              { isPress := true, keycode := kc, state := s })).1
        { isPress := false, keycode := kc, state := s2 }).1
      { isPress := true, keycode := kc, state := s }).2 = [{ id := i }] := by
  have h1 : tableGet (tableInsert (mask, kc) (i, true) t) (mask, kc) =
      some (i, true) := tableGet_insert_self _ _ _
  have hrun : processNativeEvents t
      ({ isPress := true, keycode := kc, state := s } ::
        List.replicate n { isPress := true, keycode := kc, state := s }) =
      (tableInsert (mask, kc) (i, true) t, [{ id := i }]) := by
    simp [processNativeEvents, processNativeEvent_press_fires h0 hs,
      processNativeEvents_repeats n h1 hs]
  have hrel := processNativeEvent_release_clears h1 hs2
  have h2 : tableGet
      (tableInsert (mask, kc) (i, false) (tableInsert (mask, kc) (i, true) t))
      (mask, kc) = some (i, false) := tableGet_insert_self _ _ _
  refine ⟨by rw [hrun], ?_, ?_, ?_⟩
  · rw [hrun, hrel]
  · rw [hrun, hrel]; exact h2
  · rw [hrun, hrel]
    rw [processNativeEvent_press_fires h2 hs]

/-- Witness for C4 at a concrete table and event sequence. -/
theorem c4_witness :
    (processNativeEvents [((0, 10), (7, false))]
        ({ isPress := true, keycode := 10, state := 0 } ::
          List.replicate 5 { isPress := true, keycode := 10, state := 0 })).2 =
      [{ id := 7 }] ∧
    (processNativeEvent
        (processNativeEvents [((0, 10), (7, false))]
          ({ isPress := true, keycode := 10, state := 0 } ::
            List.replicate 5
              { isPress := true, keycode := 10, state := 0 })).1
        { isPress := false, keycode := 10, state := 0 }).2 = [] := by
  have h := c4_repeat_collapse 5 [((0, 10), (7, false))] 0 10 7 0 0
    (by decide) (by decide) (by decide)
  exact ⟨h.1, h.2.1⟩

/-- Counterexample for C4 as stated: one press, five repeats, then a
release produce exactly **one** event in total — the release sends
nothing, so no "logical release event" exists (`GlobalHotKeyEvent` has no
press/release state at all), refuting "a subsequent release causes
exactly one logical release event to be sent". -/
theorem c4_counterexample :
    (processNativeEvents [((0, 10), (7, false))]
        [{ isPress := true, keycode := 10, state := 0 },
         { isPress := true, keycode := 10, state := 0 },
         { isPress := true, keycode := 10, state := 0 },
         { isPress := true, keycode := 10, state := 0 },
         { isPress := true, keycode := 10, state := 0 },
         { isPress := true, keycode := 10, state := 0 },
         { isPress := false, keycode := 10, state := 0 }]).2 =
      [{ id := 7 }] ∧
    (processNativeEvents [((0, 10), (7, false))]
        [{ isPress := true, keycode := 10, state := 0 },
         { isPress := true, keycode := 10, state := 0 },
         { isPress := true, keycode := 10, state := 0 },
         { isPress := true, keycode := 10, state := 0 },
         { isPress := true, keycode := 10, state := 0 },
         { isPress := true, keycode := 10, state := 0 },
         { isPress := false, keycode := 10, state := 0 }]).2.length ≠ 2 := by
  refine ⟨by decide, by decide⟩

/-- An X server on which no other client holds a conflicting grab:
`XGrabKey` never reports `BadAccess`. -/
def noGrab : Nat → Nat → Bool := fun _ _ => false

theorem x11Register_fresh {ksToKc : Nat → Nat} {t : Table} {hk : HotKey}
    {ks : Nat} (hks : keycode_to_x11_scancode hk.key = some ks)
    (hfresh : tableGet t (modifiers_to_x11_mods hk.mods, ksToKc ks) = none) :
    x11Register ksToKc noGrab t hk =
      (tableInsert (modifiers_to_x11_mods hk.mods, ksToKc ks)
        (hk.id, false) t, .ok ()) := by
  simp [x11Register, handleRegister, hks, hfresh, IGNORED_MODS, noGrab,
    callerResult]

theorem x11Register_dup {ksToKc : Nat → Nat} {t : Table} {hk : HotKey}
    {ks : Nat} (hks : keycode_to_x11_scancode hk.key = some ks)
    (hdup : (tableGet t (modifiers_to_x11_mods hk.mods, ksToKc ks)).isSome) :
    x11Register ksToKc noGrab t hk = (t, .error (.AlreadyRegistered hk)) := by
  simp [x11Register, handleRegister, hks, hdup, IGNORED_MODS, noGrab,
    callerResult]

theorem x11Unregister_translatable {ksToKc : Nat → Nat} {t : Table}
    {hk : HotKey} {ks : Nat}
    (hks : keycode_to_x11_scancode hk.key = some ks) :
    x11Unregister ksToKc t hk =
      (tableErase t (modifiers_to_x11_mods hk.mods, ksToKc ks), .ok ()) := by
  simp [x11Unregister, handleUnregister, hks, callerResult]

/-- C5 — Registration conflict sequence on one manager instance (no other
X client holding the grab): the first registration succeeds and inserts
the table entry; registering the same native combination again returns
`AlreadyRegistered` and inserts nothing (the table is unchanged);
unregistering removes the entry; a third registration succeeds again.  A
native grab conflict likewise returns `AlreadyRegistered` without
touching the table. -/
theorem c5_register_conflict_sequence (ksToKc : Nat → Nat) (t : Table)
    (hk : HotKey) (ks : Nat)
    (hks : keycode_to_x11_scancode hk.key = some ks)
    (hfresh : tableGet t (modifiers_to_x11_mods hk.mods, ksToKc ks) = none) :
    x11Register ksToKc noGrab t hk =
      (tableInsert (modifiers_to_x11_mods hk.mods, ksToKc ks)
        (hk.id, false) t, .ok ()) ∧
    x11Register ksToKc noGrab
        (tableInsert (modifiers_to_x11_mods hk.mods, ksToKc ks)
          (hk.id, false) t) hk =
      (tableInsert (modifiers_to_x11_mods hk.mods, ksToKc ks)
        (hk.id, false) t, .error (.AlreadyRegistered hk)) ∧
    x11Unregister ksToKc
        (tableInsert (modifiers_to_x11_mods hk.mods, ksToKc ks)
          (hk.id, false) t) hk =
      (tableErase
        (tableInsert (modifiers_to_x11_mods hk.mods, ksToKc ks)
          (hk.id, false) t)
        (modifiers_to_x11_mods hk.mods, ksToKc ks), .ok ()) ∧
    tableGet
      (tableErase
        (tableInsert (modifiers_to_x11_mods hk.mods, ksToKc ks)
          (hk.id, false) t)
        (modifiers_to_x11_mods hk.mods, ksToKc ks))
      (modifiers_to_x11_mods hk.mods, ksToKc ks) = none ∧
    (x11Register ksToKc noGrab
      (tableErase
        (tableInsert (modifiers_to_x11_mods hk.mods, ksToKc ks)
          (hk.id, false) t)
        (modifiers_to_x11_mods hk.mods, ksToKc ks)) hk).2 = .ok () ∧
    (∀ busy : Nat → Nat → Bool,
      (IGNORED_MODS.any fun m =>
        busy (ksToKc ks) (modifiers_to_x11_mods hk.mods ||| m)) = true →
      x11Register ksToKc busy t hk = (t, .error (.AlreadyRegistered hk))) := by
  have herase : tableGet
      (tableErase
        (tableInsert (modifiers_to_x11_mods hk.mods, ksToKc ks)
          (hk.id, false) t)
        (modifiers_to_x11_mods hk.mods, ksToKc ks))
      (modifiers_to_x11_mods hk.mods, ksToKc ks) = none :=
    tableGet_erase_self _ _
  refine ⟨x11Register_fresh hks hfresh, ?_, x11Unregister_translatable hks,
    herase, ?_, ?_⟩
  · exact x11Register_dup hks (by rw [tableGet_insert_self]; rfl)
  · rw [x11Register_fresh hks herase]
  · intro busy hbusy
    simp [x11Register, handleRegister, hks, hbusy, callerResult]

/-- Witness for C5 at `SHIFT+KeyQ` on an empty table with the identity
keysym translation. -/
theorem c5_witness :
    (x11Register (fun n => n) noGrab []
      { mods := Modifiers.SHIFT, key := Code.KeyQ, id := 5 }).2 = .ok () ∧
    (x11Register (fun n => n) noGrab
      (tableInsert (modifiers_to_x11_mods Modifiers.SHIFT, 81) (5, false) [])
      { mods := Modifiers.SHIFT, key := Code.KeyQ, id := 5 }).2 =
      .error (.AlreadyRegistered
        { mods := Modifiers.SHIFT, key := Code.KeyQ, id := 5 }) := by
  have h := c5_register_conflict_sequence (fun n => n) []
    { mods := Modifiers.SHIFT, key := Code.KeyQ, id := 5 } 81 rfl rfl
  exact ⟨congrArg Prod.snd h.1, congrArg Prod.snd h.2.1⟩

/-- C3 — the X11 worker does **not** always send exactly one reply per
request: registering a combination already present in the table sends two
replies (`Err(AlreadyRegistered)` and then the stray `Ok`), and
unregistering a key with no native translation (`F13`) sends zero replies
(the source holds only the comment `// send back error`); the remaining
branches do send exactly one reply. -/
theorem c3_reply_counts :
    (handleRegister (fun n => n) noGrab [((1, 81), (7, false))]
        { mods := Modifiers.SHIFT, key := Code.KeyQ, id := 9 }).2 =
      [.error (.AlreadyRegistered
        { mods := Modifiers.SHIFT, key := Code.KeyQ, id := 9 }), .ok ()] ∧
    (handleUnregister (fun n => n) []
        { mods := 0, key := Code.F13, id := 1 }).2 = [] ∧
    (handleRegister (fun n => n) noGrab []
        { mods := Modifiers.SHIFT, key := Code.KeyQ, id := 9 }).2.length = 1 ∧
    (handleUnregister (fun n => n) [((1, 81), (9, false))]
        { mods := Modifiers.SHIFT, key := Code.KeyQ, id := 9 }).2.length = 1 ∧
    (handleRegister (fun n => n) (fun _ _ => true) []
        { mods := Modifiers.SHIFT, key := Code.KeyQ, id := 9 }).2.length = 1 ∧
    (handleRegister (fun n => n) noGrab []
        { mods := 0, key := Code.F13, id := 1 }).2.length = 1 := by
  refine ⟨by decide, by decide, by decide, by decide, by decide, by decide⟩

/-- C2 — `GlobalHotKeyManager::unregister_all` calls `register`, not
`unregister`: invoked on a hotkey that is currently registered it returns
`Err(AlreadyRegistered)` and leaves the registration in place, while the
spec-intended per-element `unregister` loop succeeds and removes it. -/
theorem c2_unregister_all_calls_register :
    (unregister_all (fun n => n) noGrab
        (tableInsert (1, 81) (3, false) [])
        [{ mods := Modifiers.SHIFT, key := Code.KeyQ, id := 3 }]).2 =
      .error (.AlreadyRegistered
        { mods := Modifiers.SHIFT, key := Code.KeyQ, id := 3 }) ∧
    tableGet
      (unregister_all (fun n => n) noGrab
        (tableInsert (1, 81) (3, false) [])
        [{ mods := Modifiers.SHIFT, key := Code.KeyQ, id := 3 }]).1
      (1, 81) = some (3, false) ∧
    (unregisterAllSpec (fun n => n)
        (tableInsert (1, 81) (3, false) [])
        [{ mods := Modifiers.SHIFT, key := Code.KeyQ, id := 3 }]).2 =
      .ok () ∧
    tableGet
      (unregisterAllSpec (fun n => n)
        (tableInsert (1, 81) (3, false) [])
        [{ mods := Modifiers.SHIFT, key := Code.KeyQ, id := 3 }]).1
      (1, 81) = none := by
  refine ⟨by decide, by decide, by decide, by decide⟩

end GH
